import Mathlib

/-!
Verification of the request-signing core of the alpstable/coinbase Go client.

The embedding models bytes as natural numbers below 256 and byte strings as
lists of naturals.  Go strings are raw byte sequences; every string literal
appearing in the claims is ASCII, so a Lean string is converted to its bytes
by taking the code point of each character.  32-bit machine words are
naturals reduced modulo 2^32 at every operation that can overflow.

Definitions follow the Go source: the SHA-256 compression (crypto/sha256,
FIPS 180-4), the HMAC construction (crypto/hmac, RFC 2104), lowercase hex
encoding (encoding/hex), and the transport middleware newRoundTrip /
newRoundTripper / NewClient from the repository.
-/

namespace Coinbase

/-- 2^32, the modulus for 32-bit word arithmetic. -/
def w32 : Nat := 4294967296

/-- Right rotation of a 32-bit word by n bits. -/
def rotr32 (n x : Nat) : Nat := ((x >>> n) ||| (x <<< (32 - n))) % w32

/-- SHA-256 Ch function. -/
def ch (x y z : Nat) : Nat := (x &&& y) ^^^ ((x ^^^ 4294967295) &&& z)

/-- SHA-256 Maj function. -/
def maj (x y z : Nat) : Nat := (x &&& y) ^^^ (x &&& z) ^^^ (y &&& z)

/-- SHA-256 big Sigma 0. -/
def bsig0 (x : Nat) : Nat := rotr32 2 x ^^^ rotr32 13 x ^^^ rotr32 22 x

/-- SHA-256 big Sigma 1. -/
def bsig1 (x : Nat) : Nat := rotr32 6 x ^^^ rotr32 11 x ^^^ rotr32 25 x

/-- SHA-256 small sigma 0. -/
def ssig0 (x : Nat) : Nat := rotr32 7 x ^^^ rotr32 18 x ^^^ (x >>> 3)

/-- SHA-256 small sigma 1. -/
def ssig1 (x : Nat) : Nat := rotr32 17 x ^^^ rotr32 19 x ^^^ (x >>> 10)

/-- The 64 SHA-256 round constants, FIPS 180-4 section 4.2.2, in decimal. -/
def sha256K : List Nat :=
  [1116352408, 1899447441, 3049323471, 3921009573, 961987163,
   1508970993, 2453635748, 2870763221, 3624381080, 310598401,
   607225278, 1426881987, 1925078388, 2162078206, 2614888103,
   3248222580, 3835390401, 4022224774, 264347078, 604807628,
   770255983, 1249150122, 1555081692, 1996064986, 2554220882,
   2821834349, 2952996808, 3210313671, 3336571891, 3584528711,
   113926993, 338241895, 666307205, 773529912, 1294757372,
   1396182291, 1695183700, 1986661051, 2177026350, 2456956037,
   2730485921, 2820302411, 3259730800, 3345764771, 3516065817,
   3600352804, 4094571909, 275423344, 430227734, 506948616,
   659060556, 883997877, 958139571, 1322822218, 1537002063,
   1747873779, 1955562222, 2024104815, 2227730452, 2361852424,
   2428436474, 2756734187, 3204031479, 3329325298]

/-- The initial SHA-256 hash state, FIPS 180-4 section 5.3.3, in decimal. -/
def sha256H0 : List Nat :=
  [1779033703, 3144134277, 1013904242, 2773480762,
   1359893119, 2600822924, 528734635, 1541459225]

/-- Group bytes into big-endian 32-bit words, four bytes per word. -/
def bytesToWordsBE : List Nat → List Nat
  | a :: b :: c :: d :: rest =>
      (((a * 256 + b) * 256 + c) * 256 + d) :: bytesToWordsBE rest
  | _ => []

/-- Decompose a 32-bit word into its four big-endian bytes. -/
def wordToBytesBE (n : Nat) : List Nat :=
  [(n >>> 24) &&& 255, (n >>> 16) &&& 255, (n >>> 8) &&& 255, n &&& 255]

/-- Decompose a 64-bit length into its eight big-endian bytes. -/
def len64ToBytesBE (n : Nat) : List Nat :=
  [(n >>> 56) &&& 255, (n >>> 48) &&& 255, (n >>> 40) &&& 255, (n >>> 32) &&& 255,
   (n >>> 24) &&& 255, (n >>> 16) &&& 255, (n >>> 8) &&& 255, n &&& 255]

/-- SHA-256 padding: append 0x80, zero bytes to reach 56 mod 64, then the
bit length as a big-endian 64-bit integer. -/
def padMsg (m : List Nat) : List Nat :=
  let l := m.length
  let k := (55 + 64 - (l % 64)) % 64
  m ++ 0x80 :: List.replicate k 0 ++ len64ToBytesBE (8 * l)

/-- Split a byte list into 64-byte blocks. -/
def toBlocks : List Nat → List (List Nat)
  | [] => []
  | a :: rest => (a :: rest).take 64 :: toBlocks ((a :: rest).drop 64)
termination_by l => l.length
decreasing_by
  simp only [List.length_drop, List.length_cons]
  omega

/-- Extend the 16-word message schedule out to 64 words; the counter is the
number of words still to append. -/
def extendSchedule : List Nat → Nat → List Nat
  | ws, 0 => ws
  | ws, k + 1 =>
      let n := ws.length
      let nw := (ssig1 (ws.getD (n - 2) 0) + ws.getD (n - 7) 0 +
                 ssig0 (ws.getD (n - 15) 0) + ws.getD (n - 16) 0) % w32
      extendSchedule (ws ++ [nw]) k

/-- One SHA-256 round: update the eight-word working state with a round
constant and a schedule word. -/
def round (st : Nat × Nat × Nat × Nat × Nat × Nat × Nat × Nat) (kw : Nat × Nat) :
    Nat × Nat × Nat × Nat × Nat × Nat × Nat × Nat :=
  let (a, b, c, d, e, f, g, h) := st
  let t1 := (h + bsig1 e + ch e f g + kw.1 + kw.2) % w32
  let t2 := (bsig0 a + maj a b c) % w32
  ((t1 + t2) % w32, a, b, c, (d + t1) % w32, e, f, g)

/-- The SHA-256 compression function: absorb one 64-byte block into the
eight-word hash state. -/
def compress (hs : List Nat) (block : List Nat) : List Nat :=
  let ws := extendSchedule (bytesToWordsBE block) 48
  let init := (hs.getD 0 0, hs.getD 1 0, hs.getD 2 0, hs.getD 3 0,
               hs.getD 4 0, hs.getD 5 0, hs.getD 6 0, hs.getD 7 0)
  let (a, b, c, d, e, f, g, h) := (sha256K.zip ws).foldl round init
  [(hs.getD 0 0 + a) % w32, (hs.getD 1 0 + b) % w32, (hs.getD 2 0 + c) % w32,
   (hs.getD 3 0 + d) % w32, (hs.getD 4 0 + e) % w32, (hs.getD 5 0 + f) % w32,
   (hs.getD 6 0 + g) % w32, (hs.getD 7 0 + h) % w32]

/-- SHA-256 of a byte list, as the 32 digest bytes. -/
def sha256 (m : List Nat) : List Nat :=
  ((toBlocks (padMsg m)).foldl compress sha256H0).flatMap wordToBytesBE

/-- HMAC-SHA256 (RFC 2104, as crypto/hmac instantiated with crypto/sha256):
keys longer than the 64-byte block are first hashed; the key is zero-padded
to the block size and combined with the inner pad 0x36 and outer pad 0x5c. -/
def hmacSha256 (key msg : List Nat) : List Nat :=
  let k0 := if key.length > 64 then sha256 key else key
  let kp := k0 ++ List.replicate (64 - k0.length) 0
  let ipad := kp.map (fun b => b ^^^ 0x36)
  let opad := kp.map (fun b => b ^^^ 0x5c)
  sha256 (opad ++ sha256 (ipad ++ msg))

/-- One lowercase hexadecimal digit. -/
def hexDigit (n : Nat) : Char :=
  if n < 10 then Char.ofNat (48 + n) else Char.ofNat (87 + n)

/-- Lowercase hexadecimal encoding of a byte list (encoding/hex). -/
def hexEncode (bs : List Nat) : String :=
  ⟨bs.flatMap (fun b => [hexDigit (b / 16), hexDigit (b % 16)])⟩

/-- The bytes of a Go string.  Go strings are raw byte sequences; all strings
relevant here are ASCII, where the code point of each character is its byte. -/
def strBytes (s : String) : List Nat := s.data.map Char.toNat

/-- Go strconv.FormatInt with base 10: the decimal representation. -/
def formatInt (i : Int) : String := toString i

/-- Go strings.Join at the byte level (a Go string is a byte sequence):
concatenate the elements, placing the separator between consecutive ones. -/
def stringsJoin : List (List Nat) → List Nat → List Nat
  | [], _ => []
  | [x], _ => x
  | x :: y :: xs, sep => x ++ sep ++ stringsJoin (y :: xs) sep

/-- The parts of net/url URL that newRoundTrip reads. -/
structure URL where
  path : String
  rawQuery : String
deriving DecidableEq, Repr

/-- An http.Request body stream.  Reading it to the end (io.ReadAll) yields
the bytes obtained before any failure, and the read error if the stream
fails mid-read. -/
structure BodyStream where
  bytes : List Nat
  readErr : Option String
deriving DecidableEq, Repr

/-- The parts of http.Request that newRoundTrip reads and writes.  A nil
body is none; the header is additive, a list of name-value pairs. -/
structure Request where
  method : String
  url : URL
  body : Option BodyStream
  header : List (String × String)
deriving DecidableEq, Repr

/-- The parts of http.Response visible to this component; newRoundTrip
passes it through untouched. -/
structure Response where
  statusCode : Nat
  responseBody : List Nat
deriving DecidableEq, Repr

/-- Header.Add: append the value, keeping every existing entry. -/
def headerAdd (h : List (String × String)) (k v : String) : List (String × String) :=
  h ++ [(k, v)]

/-- The error returned by newRoundTripper on empty arguments. -/
def errInvalidRoundTripArgs : String := "invalid auth arguments"

/-- The rpath computed by newRoundTrip: the URL path, with a question mark
and the raw query appended when the raw query is non-empty
(fmt.Sprintf with format %s?%s). -/
def pathWithQuery (u : URL) : String :=
  if u.rawQuery ≠ "" then u.path ++ "?" ++ u.rawQuery else u.path

/-- What a call to newRoundTrip produces: the returned response or error,
the request as mutated (body restored, headers added), and the requests
delegated to the underlying transport, in order. -/
structure RoundTripOut where
  result : Except String Response
  req : Request
  sent : List Request
deriving Repr

/-- newRoundTrip from the source: buffer and restore the body (discarding
any read error), build rpath, format the Unix time, sign the joined
message with HMAC-SHA256, add the three cb-access headers, delegate to the
underlying transport once, and wrap a transport failure with context.
The wall clock read (time.Now().Unix()) is the parameter now, and the
underlying http.DefaultTransport.RoundTrip is the parameter transport. -/
def newRoundTrip (req : Request) (key secret : String) (now : Int)
    (transport : Request → Except String Response) : RoundTripOut :=
  let body : List Nat :=
    match req.body with
    | none => []
    | some s => s.bytes
  let req1 : Request :=
    match req.body with
    | none => req
    | some _ => { req with body := some { bytes := body, readErr := none } }
  let rpath := pathWithQuery req.url
  let unix := formatInt now
  let msg := stringsJoin [strBytes unix, strBytes req.method, strBytes rpath, body] []
  let sig := hexEncode (hmacSha256 (strBytes secret) msg)
  let hdr := headerAdd (headerAdd (headerAdd req1.header "cb-access-key" key)
    "cb-access-sign" sig) "cb-access-timestamp" unix
  let req2 := { req1 with header := hdr }
  match transport req2 with
  | Except.error e =>
      { result := Except.error ("error making request: " ++ e), req := req2, sent := [req2] }
  | Except.ok rsp =>
      { result := Except.ok rsp, req := req2, sent := [req2] }

/-- How newRoundTrip surfaces the underlying transport outcome: a failure
is wrapped with context, a response is passed through unchanged. -/
def wrapTransport (r : Except String Response) : Except String Response :=
  match r with
  | Except.error e => Except.error ("error making request: " ++ e)
  | Except.ok rsp => Except.ok rsp

/-- The roundTripper struct: its roundTrip closure captures the key and the
secret given at construction. -/
structure roundTripper where
  key : String
  secret : String
deriving DecidableEq, Repr

/-- The RoundTrip method of roundTripper: run the captured closure, which
calls newRoundTrip with the captured key and secret. -/
def roundTripperRoundTrip (rt : roundTripper) (req : Request) (now : Int)
    (transport : Request → Except String Response) : RoundTripOut :=
  newRoundTrip req rt.key rt.secret now transport

/-- newRoundTripper from the source: reject an empty key or secret with
errInvalidRoundTripArgs, otherwise capture both in the closure. -/
def newRoundTripper (key secret : String) : Except String roundTripper :=
  if key = "" ∨ secret = "" then Except.error errInvalidRoundTripArgs
  else Except.ok { key := key, secret := secret }

/-- The mutable parts of the process-global http.DefaultClient that
NewClient touches: its Transport field (nil when none). -/
structure GoHTTPClient where
  transport : Option roundTripper
deriving DecidableEq, Repr

/-- The process-global state NewClient reads and writes. -/
structure World where
  defaultClient : GoHTTPClient
deriving DecidableEq, Repr

/-- Which http.Client a Client value points at.  NewClient only ever hands
out http.DefaultClient, so the one reference is to the global default. -/
inductive ClientRef where
  | defaultClient
deriving DecidableEq, Repr

/-- The Client struct: a reference to the underlying http client. -/
structure Client where
  httpClient : ClientRef
deriving DecidableEq, Repr

/-- NewClient from the source: assign newRoundTripper(key, secret) to the
Transport of the process-global http.DefaultClient (this assignment happens
even when construction fails, leaving a nil Transport), then return a
Client holding http.DefaultClient, or the wrapped construction error. -/
def NewClient (key secret : String) (w : World) : Except String Client × World :=
  let r := newRoundTripper key secret
  let w1 : World := { w with defaultClient := { w.defaultClient with transport := r.toOption } }
  match r with
  | Except.error e => (Except.error ("failed to create client: " ++ e), w1)
  | Except.ok _ => (Except.ok { httpClient := ClientRef.defaultClient }, w1)

/-- The transport a Client actually uses in a given global state: it
dereferences its httpClient pointer into the world. -/
def clientTransport (c : Client) (w : World) : Option roundTripper :=
  match c.httpClient with
  | ClientRef.defaultClient => w.defaultClient.transport

/-- All values carried by a header name, in order. -/
def headerValues (h : List (String × String)) (k : String) : List String :=
  (h.filter (fun p => p.1 == k)).map (fun p => p.2)

/-- The bytes the body read in newRoundTrip yields: nothing for a nil body,
else the bytes the stream holds. -/
def bodyBytes (req : Request) : List Nat :=
  match req.body with
  | none => []
  | some s => s.bytes

/-- The message newRoundTrip signs, as built in the source: the join, with
empty separator, of the Unix time string, the method, the rpath, and the
body bytes. -/
def signedMessage (req : Request) (now : Int) : List Nat :=
  stringsJoin [strBytes (formatInt now), strBytes req.method,
    strBytes (pathWithQuery req.url), bodyBytes req] []

theorem stringsJoin_four (a b c d : List Nat) :
    stringsJoin [a, b, c, d] [] = a ++ b ++ c ++ d := by
  simp [stringsJoin]

theorem newRoundTrip_req_header (req : Request) (key secret : String) (now : Int)
    (transport : Request → Except String Response) :
    (newRoundTrip req key secret now transport).req.header =
      req.header ++
        [("cb-access-key", key),
         ("cb-access-sign", hexEncode (hmacSha256 (strBytes secret) (signedMessage req now))),
         ("cb-access-timestamp", formatInt now)] := by
  unfold newRoundTrip signedMessage bodyBytes
  cases hb : req.body <;>
    (simp only [hb]; split <;> simp [headerAdd])

theorem newRoundTrip_req_method (req : Request) (key secret : String) (now : Int)
    (transport : Request → Except String Response) :
    (newRoundTrip req key secret now transport).req.method = req.method := by
  unfold newRoundTrip
  cases hb : req.body <;>
    (simp only [hb]; split <;> simp)

theorem newRoundTrip_req_url (req : Request) (key secret : String) (now : Int)
    (transport : Request → Except String Response) :
    (newRoundTrip req key secret now transport).req.url = req.url := by
  unfold newRoundTrip
  cases hb : req.body <;>
    (simp only [hb]; split <;> simp)

theorem newRoundTrip_req_body (req : Request) (key secret : String) (now : Int)
    (transport : Request → Except String Response) :
    (newRoundTrip req key secret now transport).req.body =
      match req.body with
      | none => none
      | some s => some { bytes := s.bytes, readErr := none } := by
  unfold newRoundTrip
  cases hb : req.body <;>
    (simp only [hb]; split <;> simp)

theorem newRoundTrip_result (req : Request) (key secret : String) (now : Int)
    (transport : Request → Except String Response) :
    (newRoundTrip req key secret now transport).result =
      wrapTransport (transport (newRoundTrip req key secret now transport).req) := by
  unfold newRoundTrip
  cases hb : req.body <;>
    (simp only [hb]; split <;> (rename_i htr; simp [htr, wrapTransport]))

theorem newRoundTrip_sent (req : Request) (key secret : String) (now : Int)
    (transport : Request → Except String Response) :
    (newRoundTrip req key secret now transport).sent =
      [(newRoundTrip req key secret now transport).req] := by
  unfold newRoundTrip
  cases hb : req.body <;>
    (simp only [hb]; split <;> simp)

theorem headerValues_append (h1 h2 : List (String × String)) (k : String) :
    headerValues (h1 ++ h2) k = headerValues h1 k ++ headerValues h2 k := by
  simp [headerValues]

theorem newRoundTrip_sign_values (req : Request) (key secret : String) (now : Int)
    (transport : Request → Except String Response) :
    headerValues (newRoundTrip req key secret now transport).req.header "cb-access-sign" =
      headerValues req.header "cb-access-sign" ++
        [hexEncode (hmacSha256 (strBytes secret) (signedMessage req now))] := by
  rw [newRoundTrip_req_header, headerValues_append]
  simp [headerValues]

theorem newRoundTrip_timestamp_values (req : Request) (key secret : String) (now : Int)
    (transport : Request → Except String Response) :
    headerValues (newRoundTrip req key secret now transport).req.header "cb-access-timestamp" =
      headerValues req.header "cb-access-timestamp" ++ [formatInt now] := by
  rw [newRoundTrip_req_header, headerValues_append]
  simp [headerValues]

/-- A fixed request used by the closed witness statements. -/
def reqEx : Request :=
  { method := "GET",
    url := { path := "/api/v3/brokerage/accounts", rawQuery := "" },
    body := none,
    header := [] }

/-- A fixed underlying transport, always succeeding, used by the closed
witness statements. -/
def transportOk : Request → Except String Response :=
  fun _ => Except.ok { statusCode := 200, responseBody := [] }

/-- C1: the signature newRoundTrip computes is the lowercase hex encoding of
the HMAC-SHA256 digest, keyed by the secret, of the delimiter-free
concatenation of timestamp, method, pathWithQuery and body, and for the
golden scenario (secret "secret", GET on /api/v3/brokerage/accounts, empty
body, timestamp "1700000000") the signed message is exactly the string
"1700000000GET/api/v3/brokerage/accounts". -/
theorem sign_is_hmac_of_concatenation :
    (∀ (unix method rpath : String) (body : List Nat),
      stringsJoin [strBytes unix, strBytes method, strBytes rpath, body] [] =
        strBytes unix ++ strBytes method ++ strBytes rpath ++ body) ∧
    (∀ (req : Request) (key secret : String) (now : Int)
        (transport : Request → Except String Response),
      headerValues (newRoundTrip req key secret now transport).req.header "cb-access-sign" =
        headerValues req.header "cb-access-sign" ++
          [hexEncode (hmacSha256 (strBytes secret)
            (strBytes (formatInt now) ++ strBytes req.method ++
              strBytes (pathWithQuery req.url) ++ bodyBytes req))]) ∧
    signedMessage reqEx 1700000000 =
      strBytes "1700000000GET/api/v3/brokerage/accounts" ∧
    hexEncode (hmacSha256 (strBytes "secret") (signedMessage reqEx 1700000000)) =
      hexEncode (hmacSha256 (strBytes "secret")
        (strBytes "1700000000GET/api/v3/brokerage/accounts")) := by
  refine ⟨fun unix method rpath body => stringsJoin_four _ _ _ _, ?_, ?_, ?_⟩
  · intro req key secret now transport
    rw [newRoundTrip_sign_values, signedMessage, stringsJoin_four]
  · decide
  · have h : signedMessage reqEx 1700000000 =
        strBytes "1700000000GET/api/v3/brokerage/accounts" := by decide
    rw [h]

/-- C2: the pathWithQuery entering the signed message is the URL path with a
question mark and the raw query appended when the raw query is non-empty,
and the bare path when it is empty; the query "limit=10" on the accounts
path yields "/api/v3/brokerage/accounts?limit=10", distinct from the
no-query case. -/
theorem pathWithQuery_query_handling :
    (∀ u : URL, u.rawQuery ≠ "" → pathWithQuery u = u.path ++ "?" ++ u.rawQuery) ∧
    (∀ u : URL, u.rawQuery = "" → pathWithQuery u = u.path) ∧
    (∀ (req : Request) (now : Int),
      signedMessage req now =
        strBytes (formatInt now) ++ strBytes req.method ++
          strBytes (pathWithQuery req.url) ++ bodyBytes req) ∧
    pathWithQuery { path := "/api/v3/brokerage/accounts", rawQuery := "limit=10" } =
      "/api/v3/brokerage/accounts?limit=10" ∧
    pathWithQuery { path := "/api/v3/brokerage/accounts", rawQuery := "limit=10" } ≠
      pathWithQuery { path := "/api/v3/brokerage/accounts", rawQuery := "" } := by
  refine ⟨?_, ?_, ?_, by decide, by decide⟩
  · intro u h
    simp [pathWithQuery, h]
  · intro u h
    simp [pathWithQuery, h]
  · intro req now
    rw [signedMessage, stringsJoin_four]

/-- C2 witness: the two conditional clauses of pathWithQuery, instantiated
at concrete URLs. -/
theorem pathWithQuery_query_handling_witness :
    pathWithQuery { path := "/p", rawQuery := "a=1" } = "/p" ++ "?" ++ "a=1" ∧
    pathWithQuery { path := "/p", rawQuery := "" } = "/p" :=
  ⟨pathWithQuery_query_handling.1 { path := "/p", rawQuery := "a=1" } (by decide),
   pathWithQuery_query_handling.2.1 { path := "/p", rawQuery := "" } rfl⟩

/-- C3: newRoundTripper succeeds exactly when both the key and the secret
are non-empty, capturing them unchanged, and fails with the configuration
error "invalid auth arguments" when either is empty; emptiness is the only
validation done. -/
theorem newRoundTripper_validation :
    (∀ key secret : String, key ≠ "" → secret ≠ "" →
      newRoundTripper key secret = Except.ok { key := key, secret := secret }) ∧
    (∀ key secret : String, key = "" ∨ secret = "" →
      newRoundTripper key secret = Except.error errInvalidRoundTripArgs) ∧
    errInvalidRoundTripArgs = "invalid auth arguments" := by
  refine ⟨?_, ?_, rfl⟩
  · intro key secret hk hs
    simp [newRoundTripper, hk, hs]
  · intro key secret h
    simp [newRoundTripper, h]

/-- C3 witness: construction succeeds on a concrete non-empty pair and
fails with the configuration error when the key, or the secret, or both
are empty. -/
theorem newRoundTripper_validation_witness :
    newRoundTripper "k" "s" = Except.ok { key := "k", secret := "s" } ∧
    newRoundTripper "" "s" = Except.error errInvalidRoundTripArgs ∧
    newRoundTripper "k" "" = Except.error errInvalidRoundTripArgs ∧
    newRoundTripper "" "" = Except.error errInvalidRoundTripArgs :=
  ⟨newRoundTripper_validation.1 "k" "s" (by decide) (by decide),
   newRoundTripper_validation.2.1 "" "s" (Or.inl rfl),
   newRoundTripper_validation.2.1 "k" "" (Or.inr rfl),
   newRoundTripper_validation.2.1 "" "" (Or.inl rfl)⟩

/-- C4: the decimal-seconds timestamp string inside the signed message is
character for character the value appended to the cb-access-timestamp
header of the same request: both are the one string formatInt now captured
for the call. -/
theorem timestamp_header_matches_signed (req : Request) (key secret : String) (now : Int)
    (transport : Request → Except String Response) :
    headerValues (newRoundTrip req key secret now transport).req.header "cb-access-timestamp" =
      headerValues req.header "cb-access-timestamp" ++ [formatInt now] ∧
    headerValues (newRoundTrip req key secret now transport).req.header "cb-access-sign" =
      headerValues req.header "cb-access-sign" ++
        [hexEncode (hmacSha256 (strBytes secret)
          (strBytes (formatInt now) ++ strBytes req.method ++
            strBytes (pathWithQuery req.url) ++ bodyBytes req))] := by
  refine ⟨newRoundTrip_timestamp_values _ _ _ _ _, ?_⟩
  rw [newRoundTrip_sign_values, signedMessage, stringsJoin_four]

/-- C5: after newRoundTrip reads a present, non-empty body for signing, the
body of the request it transmits holds exactly the original byte sequence,
so a subsequent read is lossless. -/
theorem body_restored_lossless (req : Request) (key secret : String) (now : Int)
    (transport : Request → Except String Response) (s : BodyStream)
    (hb : req.body = some s) (_hne : s.bytes ≠ []) (herr : s.readErr = none) :
    (newRoundTrip req key secret now transport).req.body = some s := by
  rw [newRoundTrip_req_body, hb, ← herr]

/-- C5 witness: a concrete two-byte body survives the buffer-and-restore
step unchanged. -/
theorem body_restored_lossless_witness :
    (newRoundTrip { reqEx with body := some { bytes := [1, 2], readErr := none } }
        "k" "s" 0 transportOk).req.body = some { bytes := [1, 2], readErr := none } :=
  body_restored_lossless _ "k" "s" 0 transportOk { bytes := [1, 2], readErr := none }
    rfl (by decide) rfl

/-- C6: a request with no body yields the same signature as the same
request with a present empty body, and the absent-body case introduces no
error of its own: the result is still the wrapped outcome of the one
delegated transmission. -/
theorem absent_body_equals_empty_body (method : String) (u : URL)
    (hdr : List (String × String)) (key secret : String) (now : Int)
    (transport : Request → Except String Response) :
    headerValues (newRoundTrip ⟨method, u, none, hdr⟩
        key secret now transport).req.header "cb-access-sign" =
      headerValues (newRoundTrip ⟨method, u, some ⟨[], none⟩, hdr⟩
        key secret now transport).req.header "cb-access-sign" ∧
    (newRoundTrip ⟨method, u, none, hdr⟩ key secret now transport).result =
      wrapTransport (transport
        (newRoundTrip ⟨method, u, none, hdr⟩ key secret now transport).req) := by
  refine ⟨?_, newRoundTrip_result _ _ _ _ _⟩
  rw [newRoundTrip_sign_values, newRoundTrip_sign_values]
  simp [signedMessage, bodyBytes]

/-- C7: a failing delegated transmission is surfaced as an error wrapping
the underlying failure with the context "error making request" and no
response, a successful one is returned unchanged, and in every case
exactly one request is delegated to the underlying transport. -/
theorem transport_error_wrapped_once (req : Request) (key secret : String) (now : Int)
    (transport : Request → Except String Response) :
    (∀ e : String, transport (newRoundTrip req key secret now transport).req = Except.error e →
      (newRoundTrip req key secret now transport).result =
        Except.error ("error making request: " ++ e)) ∧
    (∀ rsp : Response, transport (newRoundTrip req key secret now transport).req = Except.ok rsp →
      (newRoundTrip req key secret now transport).result = Except.ok rsp) ∧
    (newRoundTrip req key secret now transport).sent =
      [(newRoundTrip req key secret now transport).req] := by
  refine ⟨?_, ?_, newRoundTrip_sent _ _ _ _ _⟩
  · intro e h
    rw [newRoundTrip_result, h, wrapTransport]
  · intro rsp h
    rw [newRoundTrip_result, h, wrapTransport]

/-- C7 witness: with an always-failing transport the wrapped error comes
back, and with an always-succeeding transport the response comes back
unchanged. -/
theorem transport_error_wrapped_once_witness :
    (newRoundTrip reqEx "k" "s" 0 (fun _ => Except.error "boom")).result =
      Except.error ("error making request: " ++ "boom") ∧
    (newRoundTrip reqEx "k" "s" 0 transportOk).result =
      Except.ok { statusCode := 200, responseBody := [] } :=
  ⟨(transport_error_wrapped_once reqEx "k" "s" 0 (fun _ => Except.error "boom")).1 "boom" rfl,
   (transport_error_wrapped_once reqEx "k" "s" 0 transportOk).2.1
     { statusCode := 200, responseBody := [] } rfl⟩

/-- C8: the wrapper appends exactly three headers, the access key, the hex
signature and the timestamp, in that order, after the existing header
entries, which are all kept untouched. -/
theorem exactly_three_headers_appended (req : Request) (key secret : String) (now : Int)
    (transport : Request → Except String Response) :
    (newRoundTrip req key secret now transport).req.header =
      req.header ++
        [("cb-access-key", key),
         ("cb-access-sign", hexEncode (hmacSha256 (strBytes secret) (signedMessage req now))),
         ("cb-access-timestamp", formatInt now)] :=
  newRoundTrip_req_header req key secret now transport

/-- C9: NewClient installs the signing transport on the process-global
default HTTP client and hands back a Client aliasing that same global
client, so a second construction with different credentials replaces the
transport shared by all previously constructed clients and every client
thereafter signs with the most recently supplied key and secret. -/
theorem newClient_global_aliasing (k1 s1 k2 s2 : String) (w : World)
    (h1 : k1 ≠ "") (h2 : s1 ≠ "") (h3 : k2 ≠ "") (h4 : s2 ≠ "") :
    (NewClient k1 s1 w).1 = Except.ok { httpClient := ClientRef.defaultClient } ∧
    (NewClient k2 s2 (NewClient k1 s1 w).2).1 =
      Except.ok { httpClient := ClientRef.defaultClient } ∧
    (NewClient k2 s2 (NewClient k1 s1 w).2).2.defaultClient.transport =
      some { key := k2, secret := s2 } ∧
    ∀ c : Client, clientTransport c (NewClient k2 s2 (NewClient k1 s1 w).2).2 =
      some { key := k2, secret := s2 } := by
  have e1 : newRoundTripper k1 s1 = Except.ok { key := k1, secret := s1 } := by
    simp [newRoundTripper, h1, h2]
  have e2 : newRoundTripper k2 s2 = Except.ok { key := k2, secret := s2 } := by
    simp [newRoundTripper, h3, h4]
  refine ⟨?_, ?_, ?_, ?_⟩
  · simp [NewClient, e1]
  · simp [NewClient, e1, e2]
  · simp [NewClient, e1, e2, Except.toOption]
  · intro c
    cases c with
    | mk ref =>
        cases ref
        simp [clientTransport, NewClient, e1, e2, Except.toOption]

/-- C9 witness: two concrete constructions in sequence; both returned
clients point at the global default client, whose transport now carries
the second pair of credentials. -/
theorem newClient_global_aliasing_witness :
    (NewClient "k1" "s1" { defaultClient := { transport := none } }).1 =
      Except.ok { httpClient := ClientRef.defaultClient } ∧
    (NewClient "k2" "s2" (NewClient "k1" "s1"
        { defaultClient := { transport := none } }).2).1 =
      Except.ok { httpClient := ClientRef.defaultClient } ∧
    (NewClient "k2" "s2" (NewClient "k1" "s1"
        { defaultClient := { transport := none } }).2).2.defaultClient.transport =
      some { key := "k2", secret := "s2" } ∧
    ∀ c : Client, clientTransport c (NewClient "k2" "s2" (NewClient "k1" "s1"
        { defaultClient := { transport := none } }).2).2 =
      some { key := "k2", secret := "s2" } :=
  newClient_global_aliasing "k1" "s1" "k2" "s2" { defaultClient := { transport := none } }
    (by decide) (by decide) (by decide) (by decide)

/-- C10: a failing body read is discarded: newRoundTrip signs with the
bytes that were obtained, restores them as the transmitted body, and the
only error it can return is the wrapped outcome of the delegated
transmission. -/
theorem body_read_error_discarded (req : Request) (key secret : String) (now : Int)
    (transport : Request → Except String Response) (b : List Nat) (e : String)
    (hb : req.body = some { bytes := b, readErr := some e }) :
    (newRoundTrip req key secret now transport).result =
      wrapTransport (transport (newRoundTrip req key secret now transport).req) ∧
    headerValues (newRoundTrip req key secret now transport).req.header "cb-access-sign" =
      headerValues req.header "cb-access-sign" ++
        [hexEncode (hmacSha256 (strBytes secret)
          (strBytes (formatInt now) ++ strBytes req.method ++
            strBytes (pathWithQuery req.url) ++ b))] ∧
    (newRoundTrip req key secret now transport).req.body =
      some { bytes := b, readErr := none } := by
  refine ⟨newRoundTrip_result _ _ _ _ _, ?_, ?_⟩
  · rw [newRoundTrip_sign_values, signedMessage, stringsJoin_four, bodyBytes, hb]
  · rw [newRoundTrip_req_body, hb]

/-- C10 witness: a one-byte body whose stream then fails is signed and
restored from the obtained byte, and the transport outcome is returned. -/
theorem body_read_error_discarded_witness :
    (newRoundTrip { reqEx with body := some { bytes := [7], readErr := some "broken pipe" } }
        "k" "s" 0 transportOk).result =
      wrapTransport (transportOk
        (newRoundTrip { reqEx with body := some { bytes := [7], readErr := some "broken pipe" } }
          "k" "s" 0 transportOk).req) ∧
    headerValues (newRoundTrip
        { reqEx with body := some { bytes := [7], readErr := some "broken pipe" } }
        "k" "s" 0 transportOk).req.header "cb-access-sign" =
      headerValues reqEx.header "cb-access-sign" ++
        [hexEncode (hmacSha256 (strBytes "s")
          (strBytes (formatInt 0) ++ strBytes reqEx.method ++
            strBytes (pathWithQuery reqEx.url) ++ [7]))] ∧
    (newRoundTrip { reqEx with body := some { bytes := [7], readErr := some "broken pipe" } }
        "k" "s" 0 transportOk).req.body =
      some { bytes := [7], readErr := none } :=
  body_read_error_discarded _ "k" "s" 0 transportOk [7] "broken pipe" rfl

end Coinbase
